import Mathlib

/-!
Shallow embedding of the quiteville simulation core (Rust) in Lean 4.

Modelling conventions:
* `f32` values are embedded as exact reals (`ℝ`); machine-float rounding is
  abstracted away.  The `TickTimer` (whose arithmetic is purely rational) is
  embedded over `ℚ` so that concrete runs are decidable.
* Rust `x.max(y)` / `x.min(y)` become `max x y` / `min x y`, `x.clamp(a,b)`
  becomes `min (max x a) b`.
* The `%` operator of Rust on `f32` (remainder) is modelled by the flooring
  remainder `fmod`; the two agree on the non-negative operands that occur in
  the program (`game_hour` stays in `[0,24)` and `hour` is non-negative).
* Calls to the global random generator (`macroquad::rand`) are modelled by
  oracle parameters (`TickRng`, `SeasonRng`, `AgentRng`, a spawn stream): each
  random draw is an explicit input.
* Collaborators that `simulate_ticks` writes to but never reads back into the
  resource / population / zone / agent state (the narrative log, chronicle,
  caravans and town proxies, floating texts, particle system, tutorial,
  statistics and achievements, UI fields) are omitted from the state record:
  no modelled field depends on them.
-/

namespace Quiteville

/-- Flooring remainder: models Rust `a % b` for the non-negative operands used
in the program (`game_hour % 24.0`). -/
noncomputable def fmod (a b : ℝ) : ℝ := a - b * ((⌊a / b⌋ : ℤ) : ℝ)

/-! ## src/data/zone_template.rs -/

/-- Resource delta (can be positive or negative); field order as in the Rust
struct `ResourceDelta`. -/
structure ResourceDelta where
  materials : ℝ
  maintenance : ℝ
  stability : ℝ
  attractiveness : ℝ

/-- `ZoneCategory` from src/data/zone_template.rs. -/
inductive ZoneCategory where
  | Residential | Market | Infrastructure | Cultural | Transit | Utility
deriving DecidableEq

/-- `MapRect` from src/data/zone_template.rs (usize coordinates). -/
structure MapRect where
  x : ℕ
  y : ℕ
  w : ℕ
  h : ℕ

/-- `PopulationEffect` from src/data/zone_template.rs. -/
structure PopulationEffect where
  attraction : ℝ
  strain : ℝ
  capacity : ℝ
  decay : ℝ

/-- `DecayModel` from src/data/zone_template.rs. -/
structure DecayModel where
  natural_rate : ℝ
  neglect_threshold : ℝ

/-- `ZoneTemplate` from src/data/zone_template.rs.  The field `upgrade_to` is
referenced by src/zones/upgrades.rs (`template.upgrade_to`) although the struct
declaration in zone_template.rs does not list it; it is modelled as an optional
id as used by the upgrade code. -/
structure ZoneTemplate where
  id : String
  name : String
  category : ZoneCategory
  base_throughput : ℝ
  construction_cost : ℝ
  construction_work : ℝ
  construction_materials : ResourceDelta
  saturation_bias : ℝ
  output : ResourceDelta
  upkeep : ResourceDelta
  population : PopulationEffect
  decay : DecayModel
  map_rect : Option MapRect
  locked_by_tech : Option String
  upgrade_to : Option String

/-! ## src/economy/resources.rs -/

/-- The core resources (`Resources` in src/economy/resources.rs). -/
structure Resources where
  materials : ℝ
  maintenance : ℝ
  attractiveness : ℝ
  stability : ℝ
  logs : ℝ
  stone_chunks : ℝ
  grain : ℝ
  lumber : ℝ
  cut_stone : ℝ
  flour : ℝ

/-- `Resources::new` (legacy constructor, raw/processed stocks start at 0). -/
noncomputable def Resources.new (materials maintenance attractiveness stability : ℝ) : Resources :=
  ⟨materials, maintenance, attractiveness, stability, 0, 0, 0, 0, 0, 0⟩

/-- `Resources::apply_delta`: add the delta, then soft-floor the four abstract
stocks at 0. -/
noncomputable def Resources.apply_delta (r : Resources) (delta : ResourceDelta) : Resources :=
  { r with
    materials := max (r.materials + delta.materials) 0
    maintenance := max (r.maintenance + delta.maintenance) 0
    attractiveness := max (r.attractiveness + delta.attractiveness) 0
    stability := max (r.stability + delta.stability) 0 }

/-- `ResourceType` from src/economy/resources.rs. -/
inductive ResourceType where
  | Materials | Logs | StoneChunks | Grain | Lumber | CutStone | Flour
deriving DecidableEq

/-- `Resources::apply_resource_change`: one stock is changed and floored at 0. -/
noncomputable def Resources.apply_resource_change (r : Resources) (resource : ResourceType)
    (amount : ℝ) : Resources :=
  match resource with
  | ResourceType.Materials => { r with materials := max (r.materials + amount) 0 }
  | ResourceType.Logs => { r with logs := max (r.logs + amount) 0 }
  | ResourceType.StoneChunks => { r with stone_chunks := max (r.stone_chunks + amount) 0 }
  | ResourceType.Grain => { r with grain := max (r.grain + amount) 0 }
  | ResourceType.Lumber => { r with lumber := max (r.lumber + amount) 0 }
  | ResourceType.CutStone => { r with cut_stone := max (r.cut_stone + amount) 0 }
  | ResourceType.Flour => { r with flour := max (r.flour + amount) 0 }

/-- `Resources::get`. -/
noncomputable def Resources.get (r : Resources) (resource : ResourceType) : ℝ :=
  match resource with
  | ResourceType.Materials => r.materials
  | ResourceType.Logs => r.logs
  | ResourceType.StoneChunks => r.stone_chunks
  | ResourceType.Grain => r.grain
  | ResourceType.Lumber => r.lumber
  | ResourceType.CutStone => r.cut_stone
  | ResourceType.Flour => r.flour

/-- `Resources::has`. -/
noncomputable def Resources.has (r : Resources) (resource : ResourceType) (amount : ℝ) : Prop :=
  amount ≤ r.get resource

/-- All ten stocks are non-negative (the data-model invariant of §3). -/
def Resources.nonneg (r : Resources) : Prop :=
  0 ≤ r.materials ∧ 0 ≤ r.maintenance ∧ 0 ≤ r.attractiveness ∧ 0 ≤ r.stability ∧
  0 ≤ r.logs ∧ 0 ≤ r.stone_chunks ∧ 0 ≤ r.grain ∧ 0 ≤ r.lumber ∧
  0 ≤ r.cut_stone ∧ 0 ≤ r.flour

/-- `effective_population` (src/economy/resources.rs): `P / (P + K)`, with an
early return of 0 for `pressure <= 0.0`. -/
noncomputable def effective_population (pressure k : ℝ) : ℝ :=
  if pressure ≤ 0 then 0 else pressure / (pressure + k)

/-- `material_factor`: `M / (M + 1)` floored at 0.1, early return 0.1 for
`materials <= 0.0`. -/
noncomputable def material_factor (materials : ℝ) : ℝ :=
  if materials ≤ 0 then 0.1 else max (materials / (materials + 1)) 0.1

/-- `maintenance_factor`: `√M / (√M + 1)` floored at 0.1. -/
noncomputable def maintenance_factor (maintenance : ℝ) : ℝ :=
  if maintenance ≤ 0 then 0.1
  else
    let sqrt_m := Real.sqrt maintenance
    max (sqrt_m / (sqrt_m + 1)) 0.1

/-- `stability_factor`: `ln(S + 1) / ln(S + 2)` floored at 0.1. -/
noncomputable def stability_factor (stability : ℝ) : ℝ :=
  if stability ≤ 0 then 0.1
  else max (Real.log (stability + 1) / Real.log (stability + 2)) 0.1

/-- `calculate_output`: base × material × maintenance × stability factors. -/
noncomputable def calculate_output (base : ℝ) (resources : Resources) : ℝ :=
  base * material_factor resources.materials
    * maintenance_factor resources.maintenance
    * stability_factor resources.stability

/-- `maintenance_cost`: `β × EffectivePopulation²`. -/
noncomputable def maintenance_cost (effective_pop coefficient : ℝ) : ℝ :=
  coefficient * effective_pop * effective_pop

/-- `offline_gain`: `Output × log(TimeAway + 1)`. -/
noncomputable def offline_gain (output hours_away : ℝ) : ℝ :=
  output * Real.log (hours_away + 1)

/-! ## src/population/pressure.rs -/

/-- `PopulationPressure` state. -/
structure PopulationPressure where
  pressure : ℝ
  growth_rate : ℝ
  decay_rate : ℝ

/-- `PopulationPressure::default`: pressure 0, growth 0.1, decay 0.005. -/
noncomputable def PopulationPressure.default : PopulationPressure := ⟨0, 0.1, 0.005⟩

/-- `PopulationPressure::new`. -/
noncomputable def PopulationPressure.new (initial : ℝ) : PopulationPressure :=
  ⟨initial, 0.1, 0.005⟩

/-- `PopulationPressure::tick`: logistic-style growth limited by capacity,
decay boosted by overcrowding, result floored at 0. -/
noncomputable def PopulationPressure.tick (pp : PopulationPressure)
    (attractiveness capacity delta_time : ℝ) : PopulationPressure :=
  let space_factor := if 0 < capacity then max (1 - pp.pressure / capacity) 0 else 0
  let growth := pp.growth_rate * attractiveness * space_factor * delta_time
  let overcrowding_factor :=
    if capacity < pp.pressure then 1 + (pp.pressure - capacity) * 0.1 else 1
  let decay := pp.decay_rate * overcrowding_factor * delta_time
  { pp with pressure := max (pp.pressure + growth - decay) 0 }

/-- `PopulationPressure::apply_delta`: add and re-floor at 0. -/
noncomputable def PopulationPressure.apply_delta (pp : PopulationPressure) (delta : ℝ) :
    PopulationPressure :=
  { pp with pressure := max (pp.pressure + delta) 0 }

/-! ## src/zones/zone.rs -/

/-- `ConstructionState`. -/
inductive ConstructionState where
  | None
  | UnderConstruction (work_done : ℝ) (materials_deposited : Bool)
  | Complete

/-- A zone's runtime state (`Zone`). -/
structure Zone where
  template_id : String
  condition : ℝ
  activity : ℝ
  dormant : Bool
  reawakening_stage : ℕ
  construction_state : ConstructionState

/-- `Zone::new`: starts dormant with zero condition. -/
noncomputable def Zone.new (template_id : String) : Zone :=
  ⟨template_id, 0, 0, true, 0, ConstructionState.None⟩

/-- `Zone::new_active`. -/
noncomputable def Zone.new_active (template_id : String) : Zone :=
  ⟨template_id, 1, 0.5, false, 1, ConstructionState.Complete⟩

/-- `Zone::new_under_construction`. -/
noncomputable def Zone.new_under_construction (template_id : String) : Zone :=
  ⟨template_id, 0, 0, true, 0, ConstructionState.UnderConstruction 0 false⟩

/-- `matches!(self.construction_state, UnderConstruction { .. })`. -/
def ConstructionState.isUnderConstruction : ConstructionState → Bool
  | ConstructionState.UnderConstruction _ _ => true
  | _ => false

/-- `Zone::is_under_construction`. -/
def Zone.is_under_construction (z : Zone) : Bool :=
  z.construction_state.isUnderConstruction

/-- `Zone::apply_construction_work`: returns (completed?, updated zone). -/
noncomputable def Zone.apply_construction_work (z : Zone) (work_amount required_work : ℝ) :
    Bool × Zone :=
  match z.construction_state with
  | ConstructionState.UnderConstruction work_done materials_deposited =>
    if materials_deposited = false then (false, z)
    else
      let work' := work_done + work_amount
      if required_work ≤ work' then
        (true, { z with construction_state := ConstructionState.Complete, condition := 1,
                        dormant := false, reawakening_stage := 1 })
      else
        (false, { z with construction_state :=
                    ConstructionState.UnderConstruction work' materials_deposited })
  | _ => (false, z)

/-- `Zone::calculate_throughput`: 0 when dormant or under construction, else
`base × condition × (activity / (activity + saturation_bias))`. -/
noncomputable def Zone.calculate_throughput (z : Zone) (template : ZoneTemplate) : ℝ :=
  if z.dormant || z.is_under_construction then 0
  else
    let saturation := z.activity / (z.activity + template.saturation_bias)
    template.base_throughput * z.condition * saturation

/-- `Zone::should_go_dormant`: condition below the template's neglect
threshold. -/
def Zone.should_go_dormant (z : Zone) (template : ZoneTemplate) : Prop :=
  z.condition < template.decay.neglect_threshold

/-- `Zone::apply_decay`: active, completed zones lose
`natural_rate × delta_time` condition, floored at 0. -/
noncomputable def Zone.apply_decay (z : Zone) (template : ZoneTemplate) (delta_time : ℝ) : Zone :=
  if z.dormant = false ∧ z.is_under_construction = false then
    { z with condition := max (z.condition - template.decay.natural_rate * delta_time) 0 }
  else z

/-- `Zone::restore`: condition capped at 1; a dormant zone whose new condition
exceeds 0.1 wakes up. -/
noncomputable def Zone.restore (z : Zone) (amount : ℝ) : Zone :=
  let condition' := min (z.condition + amount) 1
  { z with condition := condition',
           dormant := if z.dormant = true ∧ 0.1 < condition' then false else z.dormant }

/-- `Zone::update_activity`: fixed-rate low-pass filter toward the target,
clamped to [0,1]. -/
noncomputable def Zone.update_activity (z : Zone) (effective_pop : ℝ) : Zone :=
  let lerp_speed : ℝ := 0.1
  let activity' := z.activity + (effective_pop - z.activity) * lerp_speed
  { z with activity := min (max activity' 0) 1 }

/-! ## src/simulation/tick.rs — TickTimer (embedded over ℚ) -/

/-- `TickTimer` from src/simulation/tick.rs. -/
structure TickTimer where
  accumulated : ℚ
  tick_rate : ℚ

/-- `TickTimer::new`. -/
def TickTimer.new (tick_rate : ℚ) : TickTimer := ⟨0, tick_rate⟩

/-- `TickTimer::update`: accumulate the frame delta, emit
`(accumulated / tick_rate) as u32` full ticks (Rust truncates toward zero and
saturates below at 0, which on the quotient equals `⌊·⌋.toNat`) and retain the
remainder. -/
def TickTimer.update (t : TickTimer) (delta_time : ℚ) : ℕ × TickTimer :=
  let acc := t.accumulated + delta_time
  let ticks := (⌊acc / t.tick_rate⌋).toNat
  (ticks, ⟨acc - (ticks : ℚ) * t.tick_rate, t.tick_rate⟩)

/-- Run `TickTimer::update` over a list of frame deltas, collecting the
returned tick counts. -/
def TickTimer.runList (t : TickTimer) : List ℚ → List ℕ × TickTimer
  | [] => ([], t)
  | d :: ds =>
    let r := t.update d
    let rest := r.2.runList ds
    (r.1 :: rest.1, rest.2)

/-! ## src/simulation/seasons.rs -/

/-- `Season`. -/
inductive Season where
  | Spring | Summer | Autumn | Winter
deriving DecidableEq

/-- `Season::next`. -/
def Season.next : Season → Season
  | Season.Spring => Season.Summer
  | Season.Summer => Season.Autumn
  | Season.Autumn => Season.Winter
  | Season.Winter => Season.Spring

/-- `Season::farm_growth_multiplier`. -/
noncomputable def Season.farm_growth_multiplier : Season → ℝ
  | Season.Spring => 1.5
  | Season.Summer => 1.2
  | Season.Autumn => 0.8
  | Season.Winter => 0

/-- `Season::movement_multiplier`. -/
noncomputable def Season.movement_multiplier : Season → ℝ
  | Season.Spring => 1
  | Season.Summer => 1.1
  | Season.Autumn => 0.95
  | Season.Winter => 0.8

/-- `Season::morale_bonus`. -/
noncomputable def Season.morale_bonus : Season → ℝ
  | Season.Spring => 0.05
  | Season.Summer => 0.02
  | Season.Autumn => 0
  | Season.Winter => -0.03

/-- `Weather`. -/
inductive Weather where
  | Sunny | Cloudy | Rain | Storm | Snow | Fog
deriving DecidableEq

/-- `Weather::building_damage_chance`. -/
noncomputable def Weather.building_damage_chance : Weather → ℝ
  | Weather.Storm => 0.02
  | _ => 0

/-- `Weather::movement_penalty`. -/
noncomputable def Weather.movement_penalty : Weather → ℝ
  | Weather.Sunny => 1
  | Weather.Cloudy => 1
  | Weather.Rain => 0.9
  | Weather.Storm => 0.7
  | Weather.Snow => 0.75
  | Weather.Fog => 0.85

/-- `Weather::visibility_reduction`. -/
noncomputable def Weather.visibility_reduction : Weather → ℝ
  | Weather.Sunny => 0
  | Weather.Cloudy => 0.1
  | Weather.Rain => 0.2
  | Weather.Storm => 0.4
  | Weather.Snow => 0.3
  | Weather.Fog => 0.5

/-- `Weather::waters_crops`. -/
def Weather.waters_crops : Weather → Bool
  | Weather.Rain => true
  | Weather.Storm => true
  | _ => false

/-- `SeasonState`. -/
structure SeasonState where
  season : Season
  day_in_season : ℝ
  weather : Weather
  weather_duration : ℝ
  total_days : ℝ

/-- `SeasonState::default`. -/
noncomputable def SeasonState.default : SeasonState := ⟨Season.Spring, 0, Weather.Sunny, 6, 0⟩

/-- `SeasonState::DAYS_PER_SEASON`. -/
noncomputable def SeasonState.DAYS_PER_SEASON : ℝ := 12

/-- Oracle for the two random draws of `SeasonState::roll_new_weather`. -/
structure SeasonRng where
  weather_roll : ℝ
  new_duration : ℝ

/-- `SeasonState::roll_new_weather` weather table, as a function of the draw in
`[0,1)`. -/
noncomputable def rollNewWeather (season : Season) (roll : ℝ) : Weather :=
  match season with
  | Season.Spring =>
    if roll < 0.4 then Weather.Sunny
    else if roll < 0.7 then Weather.Cloudy
    else if roll < 0.9 then Weather.Rain
    else Weather.Fog
  | Season.Summer =>
    if roll < 0.6 then Weather.Sunny
    else if roll < 0.85 then Weather.Cloudy
    else Weather.Storm
  | Season.Autumn =>
    if roll < 0.3 then Weather.Sunny
    else if roll < 0.5 then Weather.Cloudy
    else if roll < 0.75 then Weather.Rain
    else if roll < 0.9 then Weather.Fog
    else Weather.Storm
  | Season.Winter =>
    if roll < 0.3 then Weather.Sunny
    else if roll < 0.5 then Weather.Cloudy
    else if roll < 0.8 then Weather.Snow
    else Weather.Fog

/-- `SeasonState::update`: advance day counters, re-roll weather when its
duration runs out, change season every 12 days; returns (state, changed?). -/
noncomputable def SeasonState.update (ss : SeasonState) (rng : SeasonRng) (game_hours : ℝ) :
    SeasonState × Bool :=
  let game_days := game_hours / 24
  let total_days' := ss.total_days + game_days
  let day' := ss.day_in_season + game_days
  let dur0 := ss.weather_duration - game_hours
  let weather' := if dur0 ≤ 0 then rollNewWeather ss.season rng.weather_roll else ss.weather
  let dur' := if dur0 ≤ 0 then rng.new_duration else dur0
  if SeasonState.DAYS_PER_SEASON ≤ day' then
    ({ season := ss.season.next, day_in_season := day' - SeasonState.DAYS_PER_SEASON,
       weather := weather', weather_duration := dur', total_days := total_days' }, true)
  else
    ({ season := ss.season, day_in_season := day', weather := weather',
       weather_duration := dur', total_days := total_days' }, false)

/-! ## src/simulation/traits.rs -/

/-- Personality `Trait`. -/
inductive Trait where
  | Hardworking | Lazy | NightOwl | EarlyBird
  | Charismatic | Loner | Gossip
  | Glutton | Frugal | Energetic | Sleepyhead
  | Optimist | Pessimist | Tough | Sensitive
deriving DecidableEq

/-- `Trait::work_speed_modifier`. -/
noncomputable def Trait.work_speed_modifier : Trait → ℝ
  | Trait.Hardworking => 1.2
  | Trait.Lazy => 0.85
  | _ => 1

/-- `Trait::hunger_decay_modifier`. -/
noncomputable def Trait.hunger_decay_modifier : Trait → ℝ
  | Trait.Glutton => 2
  | Trait.Frugal => 0.5
  | _ => 1

/-- `Trait::energy_decay_modifier`. -/
noncomputable def Trait.energy_decay_modifier : Trait → ℝ
  | Trait.Energetic => 0.7
  | Trait.Sleepyhead => 1.4
  | _ => 1

/-- `Trait::spirit_decay_modifier`. -/
noncomputable def Trait.spirit_decay_modifier : Trait → ℝ
  | Trait.Optimist => 0.5
  | Trait.Pessimist => 1.5
  | _ => 1

/-- `Trait::social_decay_modifier`. -/
noncomputable def Trait.social_decay_modifier : Trait → ℝ
  | Trait.Loner => 0.5
  | _ => 1

/-! ## src/simulation/agents.rs -/

/-- 2-d vector (macroquad `Vec2`). -/
structure Vec2 where
  x : ℝ
  y : ℝ

/-- Euclidean distance (`Vec2::distance`). -/
noncomputable def Vec2.distance (a b : Vec2) : ℝ :=
  Real.sqrt ((a.x - b.x) ^ 2 + (a.y - b.y) ^ 2)

/-- Vector addition. -/
noncomputable def Vec2.add (a b : Vec2) : Vec2 := ⟨a.x + b.x, a.y + b.y⟩

/-- Vector subtraction. -/
noncomputable def Vec2.sub (a b : Vec2) : Vec2 := ⟨a.x - b.x, a.y - b.y⟩

/-- Scalar multiple. -/
noncomputable def Vec2.scale (v : Vec2) (c : ℝ) : Vec2 := ⟨v.x * c, v.y * c⟩

/-- `Vec2::normalize` (the sources only normalize vectors of length ≥ 10;
Lean's `x / 0 = 0` stands in for the float NaN on the unreachable zero
vector). -/
noncomputable def Vec2.normalize (v : Vec2) : Vec2 :=
  let len := Real.sqrt (v.x ^ 2 + v.y ^ 2)
  ⟨v.x / len, v.y / len⟩

/-- `Job`. -/
inductive Job where
  | Laborer | Farmer | Cook | Scavenger | Builder | Hauler
deriving DecidableEq

/-- `TimeOfDay`. -/
inductive TimeOfDay where
  | Morning | Work | Evening | Night
deriving DecidableEq

/-- `TimeOfDay::from_hour`: fixed daily bands of the 24-hour clock. -/
noncomputable def TimeOfDay.from_hour (hour : ℝ) : TimeOfDay :=
  let h := fmod hour 24
  if 6 ≤ h ∧ h < 9 then TimeOfDay.Morning
  else if 9 ≤ h ∧ h < 17 then TimeOfDay.Work
  else if 17 ≤ h ∧ h < 22 then TimeOfDay.Evening
  else TimeOfDay.Night

/-- `AgentState` (tagged variant). -/
inductive AgentState where
  | Idle
  | Wandering (target : Vec2)
  | Working (target : Vec2) (duration : ℝ)
  | Shopping (target : Vec2) (duration : ℝ)
  | Socializing (target : Vec2) (duration : ℝ)
  | GoingHome
  | Sleeping
  | Building (target : Vec2) (zone_idx : ℕ)

/-- `AgentFeats`. -/
structure AgentFeats where
  buildings_helped : ℕ
  resources_hauled : ℕ
  days_lived : ℕ
  social_events : ℕ

/-- RGBA colour. -/
structure Rgba where
  r : ℝ
  g : ℝ
  b : ℝ
  a : ℝ

/-- `Agent`. -/
structure Agent where
  id : ℕ
  name : String
  pos : Vec2
  state : AgentState
  energy : ℝ
  hunger : ℝ
  social : ℝ
  spirit : ℝ
  job : Job
  home_pos : Vec2
  speed : ℝ
  color : Rgba
  traits : List Trait
  feats : AgentFeats

/-- Context for agent decisions (`WorldInfo`). -/
structure WorldInfo where
  markets : List Vec2
  workshops : List Vec2
  parks : List Vec2
  construction_sites : List (Vec2 × ℕ)
  game_hour : ℝ

/-- Oracle for the random draws inside one `Agent::update` call. -/
structure AgentRng where
  work_visit_roll : ℕ
  evening_wander_roll : ℕ
  wander_target : Vec2

/-- `Agent::find_nearest`: linear scan keeping the closest target (the Rust
version seeds with `targets[0]` against `f32::MAX`; callers guarantee the list
is non-empty). -/
noncomputable def Agent.find_nearest (a : Agent) (targets : List Vec2) : Vec2 :=
  match targets with
  | [] => ⟨0, 0⟩
  | t0 :: rest =>
    (rest.foldl
      (fun (best : Vec2 × ℝ) t =>
        let d := a.pos.distance t
        if d < best.2 then (t, d) else best)
      (t0, a.pos.distance t0)).1

/-- `Agent::is_at_location`: some listed position lies within distance 1 of the
target. -/
def Agent.is_at_location (target : Vec2) (list : List Vec2) : Prop :=
  ∃ p ∈ list, p.distance target < 1

/-- Needs decay with trait modifiers (the first block of `Agent::update`). -/
noncomputable def Agent.decayNeeds (a : Agent) (delta : ℝ) : Agent :=
  let energy_mod := a.traits.foldl (fun m t => m * t.energy_decay_modifier) 1
  let hunger_mod := a.traits.foldl (fun m t => m * t.hunger_decay_modifier) 1
  let social_mod := a.traits.foldl (fun m t => m * t.social_decay_modifier) 1
  let spirit_mod := a.traits.foldl (fun m t => m * t.spirit_decay_modifier) 1
  let decay_rate := 0.02 * delta
  { a with
    energy := max (a.energy - decay_rate * 0.3 * energy_mod) 0
    hunger := max (a.hunger - decay_rate * 0.5 * hunger_mod) 0
    social := max (a.social - decay_rate * 0.4 * social_mod) 0
    spirit := max (a.spirit - decay_rate * 0.1 * spirit_mod) 0 }

/-- Straight-line movement toward a target (`dir * speed * delta`). -/
noncomputable def Agent.moveToward (a : Agent) (target : Vec2) (delta : ℝ) : Agent :=
  let dir := (target.sub a.pos).normalize
  { a with pos := a.pos.add (dir.scale (a.speed * delta)) }

open Classical in
/-- The behaviour state machine of `Agent::update` (the `match self.state`
block), acting on the already-decayed agent (Rust `!list.is_empty()` is
`list.isEmpty = false`). -/
noncomputable def Agent.stepBehavior (a : Agent) (rng : AgentRng) (delta : ℝ)
    (world : WorldInfo) : Agent :=
  let time_of_day := TimeOfDay.from_hour world.game_hour
  match a.state with
  | AgentState.Idle =>
    match time_of_day with
    | TimeOfDay.Night =>
      if 20 < a.pos.distance a.home_pos then { a with state := AgentState.GoingHome }
      else { a with state := AgentState.Sleeping }
    | TimeOfDay.Morning =>
      if a.hunger < 0.5 ∧ world.markets.isEmpty = false then
        { a with state := AgentState.Wandering (a.find_nearest world.markets) }
      else if a.energy < 0.3 then { a with state := AgentState.Sleeping }
      else a
    | TimeOfDay.Work =>
      if a.energy < 0.2 then { a with state := AgentState.GoingHome }
      else if a.hunger < 0.3 ∧ world.markets.isEmpty = false then
        { a with state := AgentState.Wandering (a.find_nearest world.markets) }
      else if world.workshops.isEmpty = false ∧ rng.work_visit_roll < 5 then
        { a with state := AgentState.Wandering (a.find_nearest world.workshops) }
      else if world.construction_sites.isEmpty = false ∧ a.job = Job.Builder then
        match world.construction_sites.head? with
        | some site => { a with state := AgentState.Building site.1 site.2 }
        | none => a
      else a
    | TimeOfDay.Evening =>
      if a.hunger < 0.4 ∧ world.markets.isEmpty = false then
        { a with state := AgentState.Wandering (a.find_nearest world.markets) }
      else if a.social < 0.5 ∧ world.parks.isEmpty = false then
        { a with state := AgentState.Wandering (a.find_nearest world.parks) }
      else if rng.evening_wander_roll < 3 then
        { a with state := AgentState.Wandering rng.wander_target }
      else a
  | AgentState.Wandering target =>
    if a.pos.distance target < 10 then
      if Agent.is_at_location target world.markets ∧ a.hunger < 0.5 then
        { a with state := AgentState.Shopping target 2 }
      else if Agent.is_at_location target world.parks ∧ a.social < 0.5 then
        { a with state := AgentState.Socializing target 3 }
      else if Agent.is_at_location target world.workshops then
        { a with state := AgentState.Working target 5 }
      else { a with state := AgentState.Idle }
    else a.moveToward target delta
  | AgentState.Shopping target duration =>
    let duration' := duration - delta
    if duration' ≤ 0 then
      { a with hunger := 1, spirit := min (a.spirit + 0.1) 1, state := AgentState.Idle }
    else { a with state := AgentState.Shopping target duration' }
  | AgentState.Socializing target duration =>
    let duration' := duration - delta
    if duration' ≤ 0 then
      { a with social := 1, spirit := min (a.spirit + 0.2) 1,
               feats := { a.feats with social_events := a.feats.social_events + 1 },
               state := AgentState.Idle }
    else { a with state := AgentState.Socializing target duration' }
  | AgentState.Working target duration =>
    let duration' := duration - delta
    let energy' := max (a.energy - delta * 0.1) 0
    if duration' ≤ 0 then
      { a with energy := energy', spirit := min (a.spirit + 0.05) 1, state := AgentState.Idle }
    else { a with energy := energy', state := AgentState.Working target duration' }
  | AgentState.Building target zone_idx =>
    if a.pos.distance target < 10 then
      let energy' := max (a.energy - delta * 0.15) 0
      if energy' < 0.2 then { a with energy := energy', state := AgentState.GoingHome }
      else { a with energy := energy', state := AgentState.Building target zone_idx }
    else a.moveToward target delta
  | AgentState.GoingHome =>
    if a.pos.distance a.home_pos < 10 then { a with state := AgentState.Sleeping }
    else a.moveToward a.home_pos delta
  | AgentState.Sleeping =>
    let energy' := min (a.energy + delta * 0.3) 1
    if 0.9 ≤ energy' ∧ TimeOfDay.from_hour world.game_hour ≠ TimeOfDay.Night then
      { a with energy := energy', state := AgentState.Idle }
    else { a with energy := energy' }

/-- Final position clamp to world bounds (`50 × 32` tiles). -/
noncomputable def Agent.clampBounds (a : Agent) : Agent :=
  { a with pos := ⟨min (max a.pos.x 0) (50 * 32), min (max a.pos.y 0) (50 * 32)⟩ }

/-- `Agent::update`: needs decay, then the behaviour state machine, then the
bounds clamp. -/
noncomputable def Agent.update (a : Agent) (rng : AgentRng) (delta : ℝ)
    (world : WorldInfo) : Agent :=
  ((a.decayNeeds delta).stepBehavior rng delta world).clampBounds

/-- The four needs scalars all lie in `[0, 1]`. -/
def Agent.needsIn01 (a : Agent) : Prop :=
  0 ≤ a.energy ∧ a.energy ≤ 1 ∧ 0 ≤ a.hunger ∧ a.hunger ≤ 1 ∧
  0 ≤ a.social ∧ a.social ≤ 1 ∧ 0 ≤ a.spirit ∧ a.spirit ≤ 1

/-! ## src/data/tech.rs and src/data/config.rs -/

/-- `TechEffect`. -/
inductive TechEffect where
  | ProductionMulti (m : ℝ)
  | EfficiencyMulti (m : ℝ)
  | AttractivenessFlat (v : ℝ)
  | HousingGlobal (v : ℝ)

/-- `UnlockCondition` (src/data/tech.rs). -/
inductive UnlockCondition where
  | Cost (materials : ℝ)
  | MilestoneAchieved (milestone_id : String)
  | ZonesBuilt (count : ℕ)
  | ZoneActive (zone_id : String)
  | ParentOnly

/-- `TechNode`. -/
structure TechNode where
  id : String
  name : String
  description : String
  cost : ℝ
  parent_id : Option String
  unlocked : Bool
  effect : TechEffect
  unlock_condition : Option UnlockCondition
  x : ℝ
  y : ℝ

/-- `GameConfig` (src/data/config.rs); `starting_resources` is inlined as four
scalars (`ResourceDefaults`). -/
structure GameConfig where
  population_k : ℝ
  maintenance_cost_coefficient : ℝ
  offline_time_cap_hours : ℝ
  starting_materials : ℝ
  starting_maintenance : ℝ
  starting_attractiveness : ℝ
  starting_stability : ℝ
  tick_rate_seconds : ℝ

/-- `GameConfig::default` fallback values. -/
noncomputable def GameConfig.default : GameConfig :=
  ⟨10, 0.02, 72, 1, 1, 0.5, 1, 1⟩

/-! ## src/data/state.rs — the simulation-core slice of `GameState`

Only the fields read or written by the tick engine, the formulas and the
player actions are modelled; presentation/narrative/region collaborators are
write-only from the core (see the header) and are omitted. -/

/-- The simulation-core slice of `GameState`. -/
structure SimState where
  config : GameConfig
  zone_templates : List ZoneTemplate
  tech_tree : List TechNode
  resources : Resources
  population : PopulationPressure
  zones : List Zone
  agents : List Agent
  game_time_hours : ℝ
  game_hour : ℝ
  season_state : SeasonState

/-- `GameState::get_template`. -/
def SimState.get_template (s : SimState) (id : String) : Option ZoneTemplate :=
  s.zone_templates.find? (fun t => t.id == id)

/-- `GameState::effective_population`. -/
noncomputable def SimState.effective_population (s : SimState) : ℝ :=
  Quiteville.effective_population s.population.pressure s.config.population_k

/-- `GameState::calculate_total_output`: sum of the saturated output of every
zone. -/
noncomputable def SimState.calculate_total_output (s : SimState) : ℝ :=
  s.zones.foldl
    (fun total z =>
      match s.get_template z.template_id with
      | some template => total + calculate_output (z.calculate_throughput template) s.resources
      | none => total)
    0

/-- `GameState::calculate_maintenance_cost`. -/
noncomputable def SimState.calculate_maintenance_cost (s : SimState) : ℝ :=
  maintenance_cost s.effective_population s.config.maintenance_cost_coefficient

/-- `GameState::calculate_housing_capacity`: capacity of active zones scaled by
condition. -/
noncomputable def SimState.calculate_housing_capacity (s : SimState) : ℝ :=
  s.zones.foldl
    (fun total z =>
      if z.dormant then total
      else
        match s.zone_templates.find? (fun t => t.id == z.template_id) with
        | some template => total + template.population.capacity * z.condition
        | none => total)
    0

/-! ## src/simulation/tick.rs — the batched step -/

/-- Aggregated tech bonuses (the `TechBonuses` helper struct of tick.rs). -/
structure TechBonuses where
  production_multi : ℝ
  maintenance_factor : ℝ
  attractiveness_flat : ℝ
  housing_flat : ℝ

/-- `TechBonuses::default`: multipliers 1, flats 0. -/
noncomputable def TechBonuses.default : TechBonuses := ⟨1, 1, 0, 0⟩

/-- The tech-bonus fold inlined in `simulate_ticks` (lines 241–251): multiply
multipliers and sum flats over unlocked techs. -/
noncomputable def computeTechBonuses (techs : List TechNode) : TechBonuses :=
  techs.foldl
    (fun b tech =>
      if tech.unlocked then
        match tech.effect with
        | TechEffect.ProductionMulti m => { b with production_multi := b.production_multi * m }
        | TechEffect.EfficiencyMulti m => { b with maintenance_factor := b.maintenance_factor * m }
        | TechEffect.AttractivenessFlat v =>
            { b with attractiveness_flat := b.attractiveness_flat + v }
        | TechEffect.HousingGlobal v => { b with housing_flat := b.housing_flat + v }
      else b)
    TechBonuses.default

/-- Oracle for the random draws of one `simulate_ticks` call: the storm-damage
roll, the weather re-roll, the spawn stream for new agents and the per-agent
behaviour draws. -/
structure TickRng where
  storm_roll : ℝ
  season_rng : SeasonRng
  spawn : ℕ → Agent
  agent_rng : ℕ → AgentRng

/-- Agent roster reconciliation (tick.rs lines 349–371): push fresh agents
while below target, pop from the end while above. -/
noncomputable def reconcileAgents (spawn : ℕ → Agent) (agents : List Agent) (target : ℕ) :
    List Agent :=
  if agents.length < target then agents ++ (List.range (target - agents.length)).map spawn
  else agents.take target

/-- `TILE_SIZE` (src/ui/map_renderer.rs). -/
noncomputable def TILE_SIZE : ℝ := 32

/-- Centre of a template's map rectangle in world coordinates. -/
noncomputable def MapRect.center (rect : MapRect) : Vec2 :=
  ⟨((rect.x : ℝ) + (rect.w : ℝ) / 2) * TILE_SIZE, ((rect.y : ℝ) + (rect.h : ℝ) / 2) * TILE_SIZE⟩

/-- The world-info gathering loop of `simulate_ticks` (lines 391–433): zones
with a physical location are sorted into construction sites, markets,
workshops and parks. -/
noncomputable def buildWorldInfo (zones : List Zone) (templates : List ZoneTemplate)
    (game_hour : ℝ) : WorldInfo :=
  let acc := zones.enum.foldl
    (fun (acc : List Vec2 × List Vec2 × List Vec2 × List (Vec2 × ℕ)) zi =>
      let zone_idx := zi.1
      let zone := zi.2
      match templates.find? (fun t => t.id == zone.template_id) with
      | none => acc
      | some template =>
        match template.map_rect with
        | none => acc
        | some rect =>
          let pos := rect.center
          if zone.is_under_construction then
            (acc.1, acc.2.1, acc.2.2.1, acc.2.2.2 ++ [(pos, zone_idx)])
          else if zone.dormant then acc
          else
            match template.category with
            | ZoneCategory.Market => (acc.1 ++ [pos], acc.2.1, acc.2.2.1, acc.2.2.2)
            | ZoneCategory.Infrastructure => (acc.1, acc.2.1 ++ [pos], acc.2.2.1, acc.2.2.2)
            | ZoneCategory.Cultural => (acc.1, acc.2.1, acc.2.2.1 ++ [pos], acc.2.2.2)
            | _ => acc)
    ([], [], [], [])
  ⟨acc.1, acc.2.1, acc.2.2.1, acc.2.2.2, game_hour⟩

/-- The zone production/upkeep accumulation loop of `simulate_ticks`
(lines 309–331), starting from the passive-gathering initial rates. -/
noncomputable def accumulateZoneRates (zones : List Zone) (templates : List ZoneTemplate)
    (resources : Resources) (bonuses : TechBonuses) (init : ResourceDelta × ResourceDelta) :
    ResourceDelta × ResourceDelta :=
  zones.foldl
    (fun acc z =>
      if z.dormant then acc
      else
        match templates.find? (fun t => t.id == z.template_id) with
        | none => acc
        | some template =>
          let throughput := z.calculate_throughput template
          let multiplier := calculate_output throughput resources
          (⟨acc.1.materials + template.output.materials * multiplier * bonuses.production_multi,
            acc.1.maintenance + template.output.maintenance * multiplier,
            acc.1.stability + template.output.stability * multiplier,
            acc.1.attractiveness + template.output.attractiveness * multiplier⟩,
           ⟨acc.2.materials + template.upkeep.materials * bonuses.maintenance_factor,
            acc.2.maintenance + template.upkeep.maintenance * bonuses.maintenance_factor,
            acc.2.stability + template.upkeep.stability * bonuses.maintenance_factor,
            acc.2.attractiveness + template.upkeep.attractiveness * bonuses.maintenance_factor⟩))
    init

/-- `simulate_ticks` (src/simulation/tick.rs lines 164–564), restricted to the
modelled state: one aggregated economic update over
`num_ticks × tick_seconds` game-minutes, agent roster reconciliation and a
small fixed-delta behaviour step per agent.  Write-only collaborator updates
(log, chronicle, caravans, proxies, floating text, particles, tutorial,
stats/achievements) are omitted. -/
noncomputable def simulateTicks (rng : TickRng) (s : SimState) (num_ticks : ℕ)
    (tick_seconds : ℝ) : SimState :=
  if num_ticks = 0 then s
  else
    let total_seconds := (num_ticks : ℝ) * tick_seconds
    let game_minutes := total_seconds
    let total_hours := game_minutes / 60
    let game_time_hours' := s.game_time_hours + total_hours
    let season_state' := (s.season_state.update rng.season_rng total_hours).1
    let morale_change := season_state'.season.morale_bonus * total_hours / 24
    let agents1 := s.agents.map
      (fun a => { a with spirit := min (max (a.spirit + morale_change) 0) 1 })
    let active_zones := (s.zones.filter (fun z => !z.dormant)).length
    let bonuses := computeTechBonuses s.tech_tree
    let housing_capacity := s.calculate_housing_capacity + bonuses.housing_flat + 2
    let growth_bonus := (active_zones : ℝ) * 0.5
    let population' := s.population.tick (s.resources.attractiveness * (1 + growth_bonus))
      housing_capacity game_minutes
    let farm_mult := season_state'.season.farm_growth_multiplier
    let move_mult := season_state'.season.movement_multiplier
      * (1 - season_state'.weather.movement_penalty)
    let building_damage := season_state'.weather.building_damage_chance
    let zones1 :=
      if 0 < building_damage ∧ rng.storm_roll < building_damage * game_minutes / 60 then
        s.zones.map (fun z =>
          if z.dormant = false then { z with condition := max (z.condition - 0.01) 0.5 } else z)
      else s.zones
    let base_rate_per_min := 10 / 1440 * bonuses.production_multi * farm_mult
    let pop_rate_per_min :=
      0.2 * Real.sqrt population'.pressure / 1440 * bonuses.production_multi * move_mult
    let totals := accumulateZoneRates zones1 s.zone_templates s.resources bonuses
      (⟨base_rate_per_min + pop_rate_per_min, 0, 0, bonuses.attractiveness_flat * 0.001⟩,
       ⟨0, 0, 0, 0⟩)
    let decay_rate := 0.001 * game_minutes
    let net_delta : ResourceDelta :=
      ⟨(totals.1.materials - totals.2.materials) * game_minutes,
       (totals.1.maintenance - totals.2.maintenance) * game_minutes
         - maintenance_cost (effective_population population'.pressure s.config.population_k)
             s.config.maintenance_cost_coefficient * game_minutes,
       (totals.1.stability - totals.2.stability) * game_minutes
         - s.resources.stability * decay_rate,
       (totals.1.attractiveness - totals.2.attractiveness) * game_minutes
         - s.resources.attractiveness * decay_rate⟩
    let target_agents := min (round population'.pressure).toNat 50
    let agents2 := reconcileAgents rng.spawn agents1 target_agents
    let game_hour' := fmod (s.game_hour + game_minutes / 60) 24
    let agent_delta : ℝ := 0.016
    let world := buildWorldInfo zones1 s.zone_templates game_hour'
    let agents3 := agents2.enum.map (fun ia => ia.2.update (rng.agent_rng ia.1) agent_delta world)
    let resources' := s.resources.apply_delta net_delta
    { s with
      resources := resources'
      population := population'
      zones := zones1
      agents := agents3
      game_time_hours := game_time_hours'
      game_hour := game_hour'
      season_state := season_state' }

/-- `process_offline_time` (src/simulation/tick.rs lines 123–158): one
logarithmic offline gain applied to materials and attractiveness, plus a
saturated population delta (log entry omitted). -/
noncomputable def process_offline_time (s : SimState) (offline_hours : ℝ) : SimState :=
  if offline_hours ≤ 0 then s
  else
    let base_output := s.calculate_total_output
    let offline := offline_gain base_output offline_hours
    let resources' := { s.resources with
      materials := s.resources.materials + offline * 0.5
      attractiveness := s.resources.attractiveness + offline * 0.2 }
    let pop_growth := offline_hours * 0.1 * resources'.attractiveness
    { s with
      resources := resources'
      population := s.population.apply_delta pop_growth
      game_time_hours := s.game_time_hours + offline_hours }

/-! ## src/main.rs `apply_action` and src/zones/upgrades.rs -/

/-- `apply_action` for `PlayerAction::RestoreZone(index)` (src/main.rs lines
408–459): resolve the restore cost from the template (default 1.0), reject if
unaffordable or already fully restored, otherwise deduct and restore 50%
condition (log entries omitted). -/
noncomputable def applyRestoreZone (s : SimState) (index : ℕ) : SimState :=
  let cost :=
    match s.zones.get? index with
    | none => 1
    | some zone =>
      match s.zone_templates.find? (fun t => t.id == zone.template_id) with
      | none => 1
      | some template => template.construction_cost
  if s.resources.materials < cost then s
  else
    match s.zones.get? index with
    | none => s
    | some zone =>
      if 1 ≤ zone.condition then s
      else
        { s with
          resources := { s.resources with materials := s.resources.materials - cost }
          zones := s.zones.set index (zone.restore 0.5) }

/-- `apply_action` for `PlayerAction::Research(id)` (src/main.rs lines
494–509): purchase when affordable, otherwise silently do nothing. -/
noncomputable def applyResearch (s : SimState) (id : String) : SimState :=
  match s.tech_tree.findIdx? (fun t => t.id == id) with
  | none => s
  | some pos =>
    match s.tech_tree.get? pos with
    | none => s
    | some node =>
      if node.cost ≤ s.resources.materials then
        { s with
          resources := { s.resources with materials := s.resources.materials - node.cost }
          tech_tree := s.tech_tree.set pos { node with unlocked := true } }
      else s

/-- `apply_upgrade` (src/zones/upgrades.rs lines 90–128): change the zone's
template to the upgrade target, deducting the target's construction cost;
returns the old template id on success (log entry omitted). -/
noncomputable def apply_upgrade (s : SimState) (zone_idx : ℕ) : Option String × SimState :=
  match s.zones.get? zone_idx with
  | none => (none, s)
  | some zone =>
    match s.zone_templates.find? (fun t => t.id == zone.template_id) with
    | none => (none, s)
    | some template =>
      match template.upgrade_to with
      | none => (none, s)
      | some target_id =>
        match s.zone_templates.find? (fun t => t.id == target_id) with
        | none => (none, s)
        | some target =>
          if s.resources.materials < target.construction_cost then (none, s)
          else
            (some zone.template_id,
             { s with
               resources := { s.resources with
                 materials := s.resources.materials - target.construction_cost }
               zones := s.zones.set zone_idx
                 { zone with template_id := target_id, condition := 1 } })

/-! ## Concrete instances used by the witnesses and counterexamples -/

/-- A fresh agent with fixed random draws (stands in for `Agent::new`). -/
noncomputable def agentDefault : Agent :=
  ⟨0, "Settler", ⟨650, 650⟩, AgentState.Idle, 1, 1, 1, 1, Job.Laborer, ⟨650, 650⟩, 60,
   ⟨0.8, 0.8, 0.8, 1⟩, [], ⟨0, 0, 0, 0⟩⟩

/-- Fixed per-agent behaviour draws. -/
noncomputable def agentRng0 : AgentRng := ⟨50, 50, ⟨800, 800⟩⟩

/-- Fixed draws for one batched step. -/
noncomputable def rng0 : TickRng := ⟨1, ⟨0.1, 5⟩, fun _ => agentDefault, fun _ => agentRng0⟩

/-- C1 counterexample state: no zones, no tech, attractiveness stock 10,
default population model at pressure 0, default spring/sunny calendar. -/
noncomputable def s0 : SimState :=
  ⟨GameConfig.default, [], [], Resources.new 0 0 10 0, ⟨0, 0.1, 0.005⟩, [], [], 0, 0,
   SeasonState.default⟩

/-- Template for the C2 failing input: natural decay 0.01 per minute, neglect
threshold 0.1. -/
noncomputable def c2Template : ZoneTemplate :=
  ⟨"cabin", "Cabin", ZoneCategory.Residential, 1, 0.5, 10, ⟨0, 0, 0, 0⟩, 0.5,
   ⟨0.01, 0, 0, 0⟩, ⟨0, 0, 0, 0⟩, ⟨0, 0, 2, 0⟩, ⟨0.01, 0.1⟩, none, none, none⟩

/-- The C2 failing zone: completed, active, condition 0.5. -/
noncomputable def c2Zone : Zone :=
  ⟨"cabin", 0.5, 0.5, false, 1, ConstructionState.Complete⟩

/-- The C2 failing state. -/
noncomputable def c2State : SimState :=
  ⟨GameConfig.default, [c2Template], [], Resources.new 0 0 1 0, ⟨0, 0.1, 0.005⟩, [c2Zone], [],
   0, 0, SeasonState.default⟩

/-- Template for the C8 restore scenario: `construction_cost = 0.5`. -/
noncomputable def c8Template : ZoneTemplate :=
  ⟨"cabin", "Cabin", ZoneCategory.Residential, 1, 0.5, 10, ⟨0, 0, 0, 0⟩, 0.5,
   ⟨0, 0, 0, 0⟩, ⟨0, 0, 0, 0⟩, ⟨0, 0, 2, 0⟩, ⟨0.001, 0.1⟩, none, none, none⟩

/-- The C8 zone at condition 0.4. -/
noncomputable def c8Zone : Zone :=
  ⟨"cabin", 0.4, 0.5, false, 1, ConstructionState.Complete⟩

/-- The C8 starting state: `materials = 1.0`. -/
noncomputable def c8State : SimState :=
  ⟨GameConfig.default, [c8Template], [], Resources.new 1 0 0 0, ⟨0, 0.1, 0.005⟩, [c8Zone], [],
   0, 0, SeasonState.default⟩

/-- A fully restored variant of the C8 zone (condition 1). -/
noncomputable def c8FullZone : Zone :=
  ⟨"cabin", 1, 0.5, false, 1, ConstructionState.Complete⟩

/-- The C8 state with the zone already at full condition. -/
noncomputable def c8FullState : SimState :=
  ⟨GameConfig.default, [c8Template], [], Resources.new 1 0 0 0, ⟨0, 0.1, 0.005⟩, [c8FullZone], [],
   0, 0, SeasonState.default⟩

/-- An empty world at hour 23 (night). -/
noncomputable def world0 : WorldInfo := ⟨[], [], [], [], 23⟩

/-- The invariant carried through the iterated 1-tick batches of the C1
analysis: a zone-free, tech-free state in quiet sunny weather after `k`
one-minute batches, with pressure caught under the campsite capacity 2 and
attractiveness at most its initial 10. -/
def C1Invariant (k : ℕ) (s : SimState) : Prop :=
  s.zones = [] ∧ s.tech_tree = [] ∧ s.season_state.weather = Weather.Sunny ∧
  s.season_state.weather_duration = 6 - (k : ℝ) / 60 ∧
  s.season_state.day_in_season = (k : ℝ) / 1440 ∧
  0 ≤ s.population.pressure ∧ s.population.pressure ≤ 2 ∧
  0 ≤ s.resources.attractiveness ∧ s.resources.attractiveness ≤ 10 ∧
  s.population.growth_rate = 0.1 ∧ s.population.decay_rate = 0.005

/-! ## Theorems -/

/-- Claim C6: `PopulationPressure::tick` sets the pressure to
`max(0, pressure + growth − decay)` where growth is
`growth_rate × attractiveness × max(0, 1 − pressure/capacity) × delta` for
positive capacity and 0 otherwise, and decay is
`decay_rate × overcrowding × delta` with overcrowding
`1 + 0.1×(pressure − capacity)` above capacity and 1 otherwise. -/
theorem c6_population_tick_formula (pp : PopulationPressure)
    (attractiveness capacity delta : ℝ) :
    (pp.tick attractiveness capacity delta).pressure =
      max 0 (pp.pressure
        + (if 0 < capacity then
            pp.growth_rate * attractiveness * max 0 (1 - pp.pressure / capacity) * delta
          else 0)
        - pp.decay_rate
            * (if capacity < pp.pressure then 1 + 0.1 * (pp.pressure - capacity) else 1)
            * delta) := by
  simp only [PopulationPressure.tick]
  split_ifs with h1 h2
  all_goals rw [max_comm]
  all_goals try rw [max_comm (1 - pp.pressure / capacity) (0 : ℝ)]
  all_goals (congr 1 <;> try ring)

/-- Claim C7: for every non-negative input each saturation factor lies in
`[0.1, 1)`, and each returns exactly the floor 0.1 at zero input. -/
theorem c7_factor_floors (x : ℝ) (hx : 0 ≤ x) :
    (0.1 ≤ material_factor x ∧ material_factor x < 1) ∧
    (0.1 ≤ maintenance_factor x ∧ maintenance_factor x < 1) ∧
    (0.1 ≤ stability_factor x ∧ stability_factor x < 1) ∧
    material_factor 0 = 0.1 ∧ maintenance_factor 0 = 0.1 ∧ stability_factor 0 = 0.1 := by
  have hzero : material_factor 0 = 0.1 ∧ maintenance_factor 0 = 0.1 ∧ stability_factor 0 = 0.1 := by
    refine ⟨?_, ?_, ?_⟩ <;> simp [material_factor, maintenance_factor, stability_factor]
  refine ⟨?_, ?_, ?_, hzero.1, hzero.2.1, hzero.2.2⟩
  · unfold material_factor
    split_ifs with h
    · norm_num
    · refine ⟨le_max_right _ _, max_lt ?_ (by norm_num)⟩
      rw [div_lt_one (by linarith)]
      linarith
  · unfold maintenance_factor
    split_ifs with h
    · norm_num
    · have hs : 0 ≤ Real.sqrt x := Real.sqrt_nonneg x
      refine ⟨le_max_right _ _, max_lt ?_ (by norm_num)⟩
      rw [div_lt_one (by linarith)]
      linarith
  · unfold stability_factor
    split_ifs with h
    · norm_num
    · have hx1 : (0 : ℝ) < x := lt_of_not_le h
      have h2 : (0 : ℝ) < Real.log (x + 2) := Real.log_pos (by linarith)
      have h3 : Real.log (x + 1) < Real.log (x + 2) := by
        apply Real.log_lt_log (by linarith)
        linarith
      refine ⟨le_max_right _ _, max_lt ?_ (by norm_num)⟩
      rw [div_lt_one h2]
      exact h3

/-- Witness for C7 at the concrete input 0. -/
theorem c7_factor_floors_witness :
    (0 : ℝ) ≤ 0 ∧ material_factor 0 = 0.1 ∧ maintenance_factor 0 = 0.1 ∧
      stability_factor 0 = 0.1 :=
  ⟨le_refl 0, (c7_factor_floors 0 (le_refl 0)).2.2.2⟩

/-- Claim C9: for `pressure ≥ 0` and `k > 0`, `effective_population` lies in
`[0, 1)`, vanishes at 0 and is strictly increasing in the pressure. -/
theorem c9_effective_population_props (k : ℝ) (hk : 0 < k) :
    (∀ p, 0 ≤ p → 0 ≤ effective_population p k ∧ effective_population p k < 1) ∧
    effective_population 0 k = 0 ∧
    (∀ p q, 0 ≤ p → p < q → effective_population p k < effective_population q k) := by
  refine ⟨?_, by simp [effective_population], ?_⟩
  · intro p hp
    unfold effective_population
    split_ifs with h
    · norm_num
    · have hp1 : (0 : ℝ) < p := lt_of_not_le h
      constructor
      · positivity
      · rw [div_lt_one (by linarith)]
        linarith
  · intro p q hp hpq
    have hq : (0 : ℝ) < q := lt_of_le_of_lt hp hpq
    unfold effective_population
    rcases le_or_lt p 0 with h0 | h0
    · rw [if_pos h0, if_neg (not_le.mpr hq)]
      exact div_pos hq (by linarith)
    · rw [if_neg (not_le.mpr h0), if_neg (not_le.mpr hq)]
      rw [div_lt_div_iff (by linarith) (by linarith)]
      nlinarith

/-- Witness for C9 at `k = 1`, pressures 0 and 2. -/
theorem c9_effective_population_witness :
    (0 : ℝ) < 1 ∧ 0 ≤ effective_population 2 1 ∧ effective_population 2 1 < 1 ∧
      effective_population 0 1 = 0 ∧ effective_population 0 1 < effective_population 2 1 := by
  have h := c9_effective_population_props 1 (by norm_num)
  have h2 := h.1 2 (by norm_num)
  exact ⟨by norm_num, h2.1, h2.2, h.2.1, h.2.2 0 2 (by norm_num) (by norm_num)⟩

/-- One `TickTimer::update` call: the rate is preserved, the retained
remainder lies in `[0, tick_rate)`, and elapsed time is exactly accounted for
as `ticks × tick_rate + remainder`. -/
lemma tickTimer_update_spec (t : TickTimer) (d : ℚ) (hr : 0 < t.tick_rate)
    (hacc : 0 ≤ t.accumulated + d) :
    (t.update d).2.tick_rate = t.tick_rate ∧
    0 ≤ (t.update d).2.accumulated ∧
    (t.update d).2.accumulated < t.tick_rate ∧
    t.accumulated + d = ((t.update d).1 : ℚ) * t.tick_rate + (t.update d).2.accumulated := by
  have hx : 0 ≤ (t.accumulated + d) / t.tick_rate := div_nonneg hacc hr.le
  have h0 : (0 : ℤ) ≤ ⌊(t.accumulated + d) / t.tick_rate⌋ := Int.floor_nonneg.mpr hx
  have hcast : ((⌊(t.accumulated + d) / t.tick_rate⌋.toNat : ℚ)) =
      ((⌊(t.accumulated + d) / t.tick_rate⌋ : ℤ) : ℚ) := by
    exact_mod_cast congrArg (fun z : ℤ => (z : ℚ)) (Int.toNat_of_nonneg h0)
  have hle : ((⌊(t.accumulated + d) / t.tick_rate⌋ : ℤ) : ℚ) * t.tick_rate ≤ t.accumulated + d :=
    (le_div_iff hr).mp (Int.floor_le _)
  have hlt : t.accumulated + d <
      (((⌊(t.accumulated + d) / t.tick_rate⌋ : ℤ) : ℚ) + 1) * t.tick_rate :=
    (div_lt_iff hr).mp (Int.lt_floor_add_one _)
  unfold TickTimer.update
  refine ⟨rfl, ?_, ?_, ?_⟩
  · simp only
    rw [hcast]
    linarith
  · simp only
    rw [hcast]
    linarith
  · simp only
    rw [hcast]
    ring

/-- Running `TickTimer::update` over any list of non-negative deltas from a
normalized timer state: the rate is preserved, the final remainder stays in
`[0, tick_rate)` and total elapsed time equals
`(sum of returned ticks) × tick_rate + remainder`. -/
lemma tickTimer_runList_spec (ds : List ℚ) :
    ∀ t : TickTimer, 0 < t.tick_rate → 0 ≤ t.accumulated → t.accumulated < t.tick_rate →
      (∀ d ∈ ds, 0 ≤ d) →
      (t.runList ds).2.tick_rate = t.tick_rate ∧
      0 ≤ (t.runList ds).2.accumulated ∧
      (t.runList ds).2.accumulated < t.tick_rate ∧
      t.accumulated + ds.sum =
        (((t.runList ds).1.sum : ℚ)) * t.tick_rate + (t.runList ds).2.accumulated := by
  induction ds with
  | nil =>
    intro t h1 h2 h3 _
    simp [TickTimer.runList]
    exact ⟨h2, h3⟩
  | cons d ds ih =>
    intro t h1 h2 h3 h4
    have hd : 0 ≤ d := h4 d (List.mem_cons_self d ds)
    have hacc : 0 ≤ t.accumulated + d := by linarith
    obtain ⟨hrate, hnn, hlt, heq⟩ := tickTimer_update_spec t d h1 hacc
    obtain ⟨hrate', hnn', hlt', heq'⟩ :=
      ih (t.update d).2 (hrate ▸ h1) hnn (hrate ▸ hlt)
        (fun x hx => h4 x (List.mem_cons_of_mem d hx))
    rw [hrate] at hrate' hlt' heq'
    refine ⟨?_, ?_, ?_, ?_⟩
    · simpa [TickTimer.runList] using hrate'
    · simpa [TickTimer.runList] using hnn'
    · simpa [TickTimer.runList] using hlt'
    · simp only [TickTimer.runList, List.sum_cons, Nat.cast_add]
      linarith

/-- Claim C3: along every sequence of non-negative `update(delta)` calls on a
`TickTimer` with rate `r > 0`, the running sum of returned ticks times `r`
never exceeds the running sum of deltas and never falls `r` or more below it;
and the concrete call sequence `0.5, 0.5, 2.5, 0.5` on `TickTimer::new(1.0)`
returns `0, 1, 2, 1`. -/
theorem c3_tick_timer_conservation (r : ℚ) (hr : 0 < r) (deltas : List ℚ)
    (hd : ∀ d ∈ deltas, 0 ≤ d) :
    (∀ k : ℕ,
      ((((TickTimer.new r).runList (deltas.take k)).1.sum : ℚ)) * r ≤ (deltas.take k).sum ∧
      (deltas.take k).sum - r <
        (((TickTimer.new r).runList (deltas.take k)).1.sum : ℚ) * r) ∧
    ((TickTimer.new 1).runList [1/2, 1/2, 5/2, 1/2]).1 = [0, 1, 2, 1] := by
  constructor
  · intro k
    have h := tickTimer_runList_spec (deltas.take k) (TickTimer.new r) hr (le_refl 0) hr
      (fun d hdm => hd d (List.mem_of_mem_take hdm))
    obtain ⟨hrate, hnn, hlt, heq⟩ := h
    simp only [TickTimer.new] at hrate hnn hlt heq ⊢
    constructor <;> linarith
  · norm_num [TickTimer.runList, TickTimer.update, TickTimer.new]
    simp
    norm_num

/-- Witness for C3: the conservation bound instantiated at rate 1 with the
concrete delta sequence, together with the concrete returned tick counts. -/
theorem c3_tick_timer_witness :
    ((TickTimer.new 1).runList [1/2, 1/2, 5/2, 1/2]).1 = [0, 1, 2, 1] ∧
    ((((TickTimer.new 1).runList ([(1 : ℚ)/2, 1/2, 5/2, 1/2].take 4)).1.sum : ℚ)) * 1 ≤
      ([(1 : ℚ)/2, 1/2, 5/2, 1/2].take 4).sum := by
  have h := c3_tick_timer_conservation 1 (by norm_num) [1/2, 1/2, 5/2, 1/2]
    (by intro d hdm; fin_cases hdm <;> norm_num)
  exact ⟨h.2, (h.1 4).1⟩

/-- `material_factor` is non-negative on all inputs. -/
lemma material_factor_nonneg (x : ℝ) : 0 ≤ material_factor x := by
  unfold material_factor
  split_ifs
  · norm_num
  · exact le_trans (by norm_num) (le_max_right _ _)

/-- `maintenance_factor` is non-negative on all inputs. -/
lemma maintenance_factor_nonneg (x : ℝ) : 0 ≤ maintenance_factor x := by
  unfold maintenance_factor
  split_ifs
  · norm_num
  · exact le_trans (by norm_num) (le_max_right _ _)

/-- `stability_factor` is non-negative on all inputs. -/
lemma stability_factor_nonneg (x : ℝ) : 0 ≤ stability_factor x := by
  unfold stability_factor
  split_ifs
  · norm_num
  · exact le_trans (by norm_num) (le_max_right _ _)

/-- A zone's throughput is non-negative when its state and template scalars
are. -/
lemma calculate_throughput_nonneg (z : Zone) (t : ZoneTemplate)
    (hc : 0 ≤ z.condition) (ha : 0 ≤ z.activity) (hb : 0 ≤ t.base_throughput)
    (hs : 0 ≤ t.saturation_bias) : 0 ≤ z.calculate_throughput t := by
  unfold Zone.calculate_throughput
  split_ifs
  · exact le_refl 0
  · dsimp only
    exact mul_nonneg (mul_nonneg hb hc) (div_nonneg ha (add_nonneg ha hs))

/-- `calculate_output` preserves non-negativity of the base. -/
lemma calculate_output_nonneg (base : ℝ) (r : Resources) (hb : 0 ≤ base) :
    0 ≤ calculate_output base r := by
  unfold calculate_output
  exact mul_nonneg (mul_nonneg (mul_nonneg hb (material_factor_nonneg _))
    (maintenance_factor_nonneg _)) (stability_factor_nonneg _)

/-- `Resources::apply_delta` keeps every stock non-negative. -/
lemma resources_apply_delta_nonneg (r : Resources) (d : ResourceDelta) (hr : r.nonneg) :
    (r.apply_delta d).nonneg := by
  obtain ⟨h1, h2, h3, h4, h5, h6, h7, h8, h9, h10⟩ := hr
  exact ⟨le_max_right _ _, le_max_right _ _, le_max_right _ _, le_max_right _ _,
    h5, h6, h7, h8, h9, h10⟩

/-- `Resources::apply_resource_change` keeps every stock non-negative. -/
lemma resources_apply_resource_change_nonneg (r : Resources) (ty : ResourceType) (amount : ℝ)
    (hr : r.nonneg) : (r.apply_resource_change ty amount).nonneg := by
  obtain ⟨h1, h2, h3, h4, h5, h6, h7, h8, h9, h10⟩ := hr
  cases ty <;>
    simp only [Resources.apply_resource_change, Resources.nonneg] <;>
    refine ⟨?_, ?_, ?_, ?_, ?_, ?_, ?_, ?_, ?_, ?_⟩ <;>
    first
      | assumption
      | exact le_max_right _ _

/-- `GameState::calculate_total_output` is non-negative when all zone and
template scalars are. -/
lemma calculate_total_output_nonneg (s : SimState)
    (hz : ∀ z ∈ s.zones, 0 ≤ z.condition ∧ 0 ≤ z.activity)
    (ht : ∀ t ∈ s.zone_templates, 0 ≤ t.base_throughput ∧ 0 ≤ t.saturation_bias) :
    0 ≤ s.calculate_total_output := by
  unfold SimState.calculate_total_output
  have key : ∀ zs : List Zone, (∀ z ∈ zs, 0 ≤ z.condition ∧ 0 ≤ z.activity) →
      ∀ init : ℝ, 0 ≤ init →
      0 ≤ zs.foldl
        (fun total z =>
          match s.get_template z.template_id with
          | some template =>
              total + calculate_output (z.calculate_throughput template) s.resources
          | none => total) init := by
    intro zs
    induction zs with
    | nil =>
      intro _ init hinit
      simpa using hinit
    | cons z zs ih =>
      intro hmem init hinit
      simp only [List.foldl_cons]
      apply ih (fun w hw => hmem w (List.mem_cons_of_mem z hw))
      cases hopt : s.get_template z.template_id with
      | none => simpa [hopt] using hinit
      | some template =>
        have hzc := hmem z (List.mem_cons_self z zs)
        have htm : template ∈ s.zone_templates := by
          have := List.mem_of_find?_eq_some hopt
          exact this
        have hth := ht template htm
        simp only [hopt]
        have hthr : 0 ≤ z.calculate_throughput template :=
          calculate_throughput_nonneg z template hzc.1 hzc.2 hth.1 hth.2
        exact add_nonneg hinit
          (calculate_output_nonneg (z.calculate_throughput template) s.resources hthr)
  exact key s.zones hz 0 (le_refl 0)

/-- Claim C5: no resource stock ever becomes negative through any of the
public mutation paths: the batched tick's `apply_delta`, raw/processed
resource changes, the RestoreZone / Research / UpgradeZone player spends,
offline gains, and the batched step itself. -/
theorem c5_resources_never_negative :
    (∀ (r : Resources) (d : ResourceDelta), r.nonneg → (r.apply_delta d).nonneg) ∧
    (∀ (r : Resources) (ty : ResourceType) (amount : ℝ), r.nonneg →
      (r.apply_resource_change ty amount).nonneg) ∧
    (∀ (s : SimState) (idx : ℕ), s.resources.nonneg →
      (applyRestoreZone s idx).resources.nonneg) ∧
    (∀ (s : SimState) (id : String), s.resources.nonneg →
      (applyResearch s id).resources.nonneg) ∧
    (∀ (s : SimState) (idx : ℕ), s.resources.nonneg →
      (apply_upgrade s idx).2.resources.nonneg) ∧
    (∀ (s : SimState) (hours : ℝ), s.resources.nonneg →
      (∀ z ∈ s.zones, 0 ≤ z.condition ∧ 0 ≤ z.activity) →
      (∀ t ∈ s.zone_templates, 0 ≤ t.base_throughput ∧ 0 ≤ t.saturation_bias) →
      (process_offline_time s hours).resources.nonneg) ∧
    (∀ (rng : TickRng) (s : SimState) (n : ℕ) (ts : ℝ), s.resources.nonneg →
      (simulateTicks rng s n ts).resources.nonneg) := by
  refine ⟨resources_apply_delta_nonneg, resources_apply_resource_change_nonneg,
    ?_, ?_, ?_, ?_, ?_⟩
  · intro s idx hr
    unfold applyRestoreZone
    dsimp only
    split_ifs with h
    · exact hr
    · cases hz : s.zones.get? idx with
      | none => simpa [hz] using hr
      | some zone =>
        simp only [hz] at h ⊢
        split_ifs with h2
        · exact hr
        · obtain ⟨h1, hb, hc, hd, h5, h6, h7, h8, h9, h10⟩ := hr
          exact ⟨by linarith [not_lt.mp h], hb, hc, hd, h5, h6, h7, h8, h9, h10⟩
  · intro s id hr
    unfold applyResearch
    cases hidx : s.tech_tree.findIdx? (fun t => t.id == id) with
    | none => simpa [hidx] using hr
    | some pos =>
      simp only [hidx]
      cases hnode : s.tech_tree.get? pos with
      | none => simpa using hr
      | some node =>
        simp only
        split_ifs with h
        · obtain ⟨h1, hb, hc, hd, h5, h6, h7, h8, h9, h10⟩ := hr
          exact ⟨by dsimp only; linarith, hb, hc, hd, h5, h6, h7, h8, h9, h10⟩
        · exact hr
  · intro s idx hr
    unfold apply_upgrade
    cases hz : s.zones.get? idx with
    | none => simpa using hr
    | some zone =>
      simp only
      cases htpl : s.zone_templates.find? (fun t => t.id == zone.template_id) with
      | none => simpa using hr
      | some template =>
        simp only
        cases hup : template.upgrade_to with
        | none => simpa using hr
        | some target_id =>
          simp only
          cases htg : s.zone_templates.find? (fun t => t.id == target_id) with
          | none => simpa using hr
          | some target =>
            simp only
            split_ifs with h
            · exact hr
            · obtain ⟨h1, hb, hc, hd, h5, h6, h7, h8, h9, h10⟩ := hr
              exact ⟨by dsimp only; linarith [not_lt.mp h], hb, hc, hd, h5, h6, h7, h8, h9,
                h10⟩
  · intro s hours hr hz ht
    unfold process_offline_time
    split_ifs with h
    · exact hr
    · have hout : 0 ≤ s.calculate_total_output := calculate_total_output_nonneg s hz ht
      have hlog : 0 ≤ Real.log (hours + 1) :=
        Real.log_nonneg (by linarith [not_le.mp h])
      have hgain : 0 ≤ offline_gain s.calculate_total_output hours := mul_nonneg hout hlog
      obtain ⟨h1, hb, hc, hd, h5, h6, h7, h8, h9, h10⟩ := hr
      exact ⟨by nlinarith, hb, by nlinarith, hd, h5, h6, h7, h8, h9, h10⟩
  · intro rng s n ts hr
    unfold simulateTicks
    split_ifs with h
    · exact hr
    · exact resources_apply_delta_nonneg s.resources _ hr

/-- Witness for C5: the preservation statements applied at concrete inputs
(a negative delta against unit stocks, a raw-stock drain, the concrete restore
state, and a two-hour offline gain on the zone-free state). -/
theorem c5_resources_witness :
    ((Resources.new 1 1 1 1).apply_delta ⟨-5, -5, -5, -5⟩).nonneg ∧
    ((Resources.new 1 1 1 1).apply_resource_change ResourceType.Logs (-3)).nonneg ∧
    (applyRestoreZone c8State 0).resources.nonneg ∧
    (process_offline_time s0 2).resources.nonneg := by
  have h := c5_resources_never_negative
  have hnew : (Resources.new 1 1 1 1).nonneg := by
    simp [Resources.new, Resources.nonneg]
  have hc8 : c8State.resources.nonneg := by
    simp [c8State, Resources.new, Resources.nonneg]
  have hs0 : s0.resources.nonneg := by
    simp [s0, Resources.new, Resources.nonneg]
  refine ⟨h.1 _ _ hnew, h.2.1 _ _ _ hnew, h.2.2.1 _ 0 hc8, h.2.2.2.2.2.1 s0 2 hs0 ?_ ?_⟩
  · intro z hzm
    simp [s0] at hzm
  · intro t htm
    simp [s0] at htm

/-- Claim C8: on the concrete state (`materials = 1.0`, zone with
`construction_cost = 0.5` and `condition = 0.4`) the restore action succeeds,
leaving `materials = 0.5` and `condition = min(1, 0.4 + 0.5) = 0.9`; and any
restore on a zone that is already at full condition, or whose cost exceeds the
materials stock, leaves the state entirely unchanged. -/
theorem c8_restore_action :
    (applyRestoreZone c8State 0).resources.materials = 0.5 ∧
    (applyRestoreZone c8State 0).zones.map Zone.condition = [0.9] ∧
    (∀ (s : SimState) (idx : ℕ) (zone : Zone) (template : ZoneTemplate),
      s.zones.get? idx = some zone →
      s.zone_templates.find? (fun t => t.id == zone.template_id) = some template →
      1 ≤ zone.condition ∨ s.resources.materials < template.construction_cost →
      applyRestoreZone s idx = s) := by
  refine ⟨?_, ?_, ?_⟩
  · norm_num [applyRestoreZone, c8State, c8Zone, c8Template, Zone.restore, Resources.new,
      List.find?]
  · norm_num [applyRestoreZone, c8State, c8Zone, c8Template, Zone.restore, Resources.new,
      List.find?]
  · intro s idx zone template hz htpl hcond
    unfold applyRestoreZone
    dsimp only
    simp only [hz, htpl]
    rcases lt_or_le s.resources.materials template.construction_cost with hlt | hge
    · rw [if_pos hlt]
    · rw [if_neg (not_lt.mpr hge)]
      have hcond1 : 1 ≤ zone.condition := hcond.resolve_right (not_lt.mpr hge)
      rw [if_pos hcond1]

/-- Witness for C8's no-op clause: restoring the already fully restored zone
changes nothing. -/
theorem c8_restore_witness : applyRestoreZone c8FullState 0 = c8FullState := by
  apply c8_restore_action.2.2 c8FullState 0 c8FullZone c8Template
  · rfl
  · rfl
  · left
    norm_num [c8FullZone]

/-- A fold of non-negative multiplicative modifiers from a non-negative seed
stays non-negative. -/
lemma foldl_mul_modifier_nonneg (f : Trait → ℝ) (hf : ∀ t, 0 ≤ f t) (ts : List Trait) :
    ∀ init : ℝ, 0 ≤ init → 0 ≤ ts.foldl (fun m t => m * f t) init := by
  induction ts with
  | nil =>
    intro init hi
    simpa using hi
  | cons t ts ih =>
    intro init hi
    simp only [List.foldl_cons]
    exact ih _ (mul_nonneg hi (hf t))

/-- Every energy-decay trait modifier is non-negative. -/
lemma energy_decay_modifier_nonneg (t : Trait) : 0 ≤ t.energy_decay_modifier := by
  cases t <;> norm_num [Trait.energy_decay_modifier]

/-- Every hunger-decay trait modifier is non-negative. -/
lemma hunger_decay_modifier_nonneg (t : Trait) : 0 ≤ t.hunger_decay_modifier := by
  cases t <;> norm_num [Trait.hunger_decay_modifier]

/-- Every social-decay trait modifier is non-negative. -/
lemma social_decay_modifier_nonneg (t : Trait) : 0 ≤ t.social_decay_modifier := by
  cases t <;> norm_num [Trait.social_decay_modifier]

/-- Every spirit-decay trait modifier is non-negative. -/
lemma spirit_decay_modifier_nonneg (t : Trait) : 0 ≤ t.spirit_decay_modifier := by
  cases t <;> norm_num [Trait.spirit_decay_modifier]

/-- The needs-decay block keeps all four needs in `[0, 1]`. -/
lemma decayNeeds_needsIn01 (a : Agent) (delta : ℝ) (hd : 0 ≤ delta) (h : a.needsIn01) :
    (a.decayNeeds delta).needsIn01 := by
  obtain ⟨he1, he2, hh1, hh2, hs1, hs2, hp1, hp2⟩ := h
  have hem := foldl_mul_modifier_nonneg _ energy_decay_modifier_nonneg a.traits 1 (by norm_num)
  have hhm := foldl_mul_modifier_nonneg _ hunger_decay_modifier_nonneg a.traits 1 (by norm_num)
  have hsm := foldl_mul_modifier_nonneg _ social_decay_modifier_nonneg a.traits 1 (by norm_num)
  have hpm := foldl_mul_modifier_nonneg _ spirit_decay_modifier_nonneg a.traits 1 (by norm_num)
  unfold Agent.decayNeeds
  dsimp only
  have hce : 0 ≤ 0.02 * delta * 0.3 *
      a.traits.foldl (fun m t => m * t.energy_decay_modifier) 1 :=
    mul_nonneg (mul_nonneg (mul_nonneg (by norm_num) hd) (by norm_num)) hem
  have hch : 0 ≤ 0.02 * delta * 0.5 *
      a.traits.foldl (fun m t => m * t.hunger_decay_modifier) 1 :=
    mul_nonneg (mul_nonneg (mul_nonneg (by norm_num) hd) (by norm_num)) hhm
  have hcs : 0 ≤ 0.02 * delta * 0.4 *
      a.traits.foldl (fun m t => m * t.social_decay_modifier) 1 :=
    mul_nonneg (mul_nonneg (mul_nonneg (by norm_num) hd) (by norm_num)) hsm
  have hcp : 0 ≤ 0.02 * delta * 0.1 *
      a.traits.foldl (fun m t => m * t.spirit_decay_modifier) 1 :=
    mul_nonneg (mul_nonneg (mul_nonneg (by norm_num) hd) (by norm_num)) hpm
  refine ⟨le_max_right _ _, max_le (by linarith) (by norm_num),
    le_max_right _ _, max_le (by linarith) (by norm_num),
    le_max_right _ _, max_le (by linarith) (by norm_num),
    le_max_right _ _, max_le (by linarith) (by norm_num)⟩

/-- The behaviour state machine keeps all four needs in `[0, 1]`. -/
lemma stepBehavior_needsIn01 (a : Agent) (rng : AgentRng) (delta : ℝ) (world : WorldInfo)
    (hd : 0 ≤ delta) (h : a.needsIn01) : (a.stepBehavior rng delta world).needsIn01 := by
  obtain ⟨he1, he2, hh1, hh2, hs1, hs2, hp1, hp2⟩ := h
  unfold Agent.stepBehavior
  dsimp only [Agent.moveToward]
  split
  all_goals repeat' (first | split | split_ifs)
  all_goals try dsimp only [Agent.moveToward]
  all_goals refine ⟨?_, ?_, ?_, ?_, ?_, ?_, ?_, ?_⟩
  all_goals
    first
      | assumption
      | exact le_max_right _ _
      | exact max_le (by linarith) (by norm_num)
      | exact min_le_right _ _
      | exact le_min (by linarith) (by norm_num)
      | norm_num

/-- The world-bounds clamp leaves the needs untouched. -/
lemma clampBounds_needsIn01 (a : Agent) (h : a.needsIn01) : a.clampBounds.needsIn01 := by
  unfold Agent.clampBounds
  exact h

/-- Claim C10: starting from needs in `[0, 1]`, every `Agent::update` with a
non-negative delta and any world info keeps all four needs in `[0, 1]`. -/
theorem c10_agent_needs_in_unit_interval (a : Agent) (rng : AgentRng) (delta : ℝ)
    (world : WorldInfo) (hd : 0 ≤ delta) (h : a.needsIn01) :
    (a.update rng delta world).needsIn01 := by
  unfold Agent.update
  exact clampBounds_needsIn01 _
    (stepBehavior_needsIn01 _ rng delta world hd (decayNeeds_needsIn01 a delta hd h))

/-- Witness for C10 at a concrete idle agent, zero delta and the empty night
world. -/
theorem c10_agent_needs_witness :
    (0 : ℝ) ≤ 0 ∧ agentDefault.needsIn01 ∧
      (agentDefault.update agentRng0 0 world0).needsIn01 := by
  have h0 : agentDefault.needsIn01 := by
    norm_num [agentDefault, Agent.needsIn01]
  exact ⟨le_refl 0, h0,
    c10_agent_needs_in_unit_interval agentDefault agentRng0 0 world0 (le_refl 0) h0⟩

/-- When the weather clock does not run out and the season boundary is not
crossed, `SeasonState::update` just advances the day counters. -/
lemma seasonState_update_quiet (ss : SeasonState) (rng : SeasonRng) (hours : ℝ)
    (hdur : hours < ss.weather_duration) (hday : ss.day_in_season + hours / 24 < 12) :
    ss.update rng hours =
      (⟨ss.season, ss.day_in_season + hours / 24, ss.weather, ss.weather_duration - hours,
        ss.total_days + hours / 24⟩, false) := by
  unfold SeasonState.update
  dsimp only
  rw [if_neg (by linarith : ¬ss.weather_duration - hours ≤ 0),
    if_neg (by linarith : ¬ss.weather_duration - hours ≤ 0)]
  rw [if_neg (by simp only [SeasonState.DAYS_PER_SEASON]; linarith)]

/-- `simulate_ticks` advances game time by exactly
`num_ticks × tick_seconds / 60` hours. -/
lemma simulateTicks_game_time (rng : TickRng) (s : SimState) (n : ℕ) (ts : ℝ) (hn : n ≠ 0) :
    (simulateTicks rng s n ts).game_time_hours = s.game_time_hours + (n : ℝ) * ts / 60 := by
  unfold simulateTicks
  rw [if_neg hn]

/-- `simulate_ticks` never changes any zone's `dormant` flag. -/
lemma simulateTicks_dormant_preserved (rng : TickRng) (s : SimState) (n : ℕ) (ts : ℝ) :
    (simulateTicks rng s n ts).zones.map Zone.dormant = s.zones.map Zone.dormant := by
  unfold simulateTicks
  split_ifs with h
  · rfl
  · dsimp only
    split_ifs with h2
    · rw [List.map_map]
      apply List.map_congr_left
      intro z _
      by_cases hz : z.dormant = false <;> simp [hz]
    · rfl

/-- The agent roster reconciliation always produces exactly the target
count. -/
lemma reconcileAgents_length (spawn : ℕ → Agent) (agents : List Agent) (target : ℕ) :
    (reconcileAgents spawn agents target).length = target := by
  unfold reconcileAgents
  split_ifs with h
  · simp only [List.length_append, List.length_map, List.length_range]
    omega
  · simp only [List.length_take]
    omega

/-- One `simulate_ticks` batch of `n` one-second ticks on a zone-free,
tech-free state during quiet sunny weather: the population pressure receives a
single aggregated update over `n` game-minutes against the campsite capacity 2,
the attractiveness stock decays by `0.1%` per game-minute, and the structural
fields evolve predictably. -/
lemma simulateTicks_empty_step (rng : TickRng) (s : SimState) (n : ℕ) (hn : n ≠ 0)
    (hz : s.zones = []) (ht : s.tech_tree = [])
    (hw : s.season_state.weather = Weather.Sunny)
    (hdur : (n : ℝ) / 60 < s.season_state.weather_duration)
    (hday : s.season_state.day_in_season + (n : ℝ) / 1440 < 12) :
    (simulateTicks rng s n 1).population.pressure =
      max (s.population.pressure
        + s.population.growth_rate * s.resources.attractiveness
            * max (1 - s.population.pressure / 2) 0 * n
        - s.population.decay_rate
            * (if 2 < s.population.pressure then 1 + (s.population.pressure - 2) * 0.1 else 1)
            * n) 0 ∧
    (simulateTicks rng s n 1).resources.attractiveness =
      max (s.resources.attractiveness - s.resources.attractiveness * (0.001 * n)) 0 ∧
    (simulateTicks rng s n 1).zones = [] ∧
    (simulateTicks rng s n 1).tech_tree = [] ∧
    (simulateTicks rng s n 1).season_state.weather = Weather.Sunny ∧
    (simulateTicks rng s n 1).season_state.weather_duration =
      s.season_state.weather_duration - (n : ℝ) / 60 ∧
    (simulateTicks rng s n 1).season_state.day_in_season =
      s.season_state.day_in_season + (n : ℝ) / 1440 ∧
    (simulateTicks rng s n 1).population.growth_rate = s.population.growth_rate ∧
    (simulateTicks rng s n 1).population.decay_rate = s.population.decay_rate := by
  unfold simulateTicks
  rw [if_neg hn]
  dsimp only
  rw [seasonState_update_quiet s.season_state rng.season_rng ((n : ℝ) * 1 / 60)
      (by rw [mul_one]; exact hdur)
      (by rw [mul_one, div_div]; norm_num [hday])]
  dsimp only
  simp only [hz, ht]
  simp only [List.filter_nil, List.length_nil, Nat.cast_zero, List.map_nil, ite_self,
    computeTechBonuses, List.foldl_nil, TechBonuses.default, accumulateZoneRates,
    SimState.calculate_housing_capacity, hz, Resources.apply_delta, PopulationPressure.tick,
    hw, Weather.building_damage_chance]
  norm_num
  constructor
  · rw [← sub_eq_add_neg]
  · rw [div_div]
    norm_num

/-- One 1-tick batch on a zone-free state preserves the `pressure ≤ 2` and
`attractiveness ≤ 10` envelope (the campsite capacity caps logistic growth),
together with the structural facts needed to keep stepping. -/
lemma c1_invariant_step (rng : TickRng) (s : SimState)
    (hz : s.zones = []) (ht : s.tech_tree = [])
    (hw : s.season_state.weather = Weather.Sunny)
    (hdur : (1 : ℝ) / 60 < s.season_state.weather_duration)
    (hday : s.season_state.day_in_season + (1 : ℝ) / 1440 < 12)
    (hp0 : 0 ≤ s.population.pressure) (hp2 : s.population.pressure ≤ 2)
    (ha0 : 0 ≤ s.resources.attractiveness) (ha10 : s.resources.attractiveness ≤ 10)
    (hgr : s.population.growth_rate = 0.1) (hdr : s.population.decay_rate = 0.005) :
    (simulateTicks rng s 1 1).zones = [] ∧
    (simulateTicks rng s 1 1).tech_tree = [] ∧
    (simulateTicks rng s 1 1).season_state.weather = Weather.Sunny ∧
    (simulateTicks rng s 1 1).season_state.weather_duration =
      s.season_state.weather_duration - 1 / 60 ∧
    (simulateTicks rng s 1 1).season_state.day_in_season =
      s.season_state.day_in_season + 1 / 1440 ∧
    0 ≤ (simulateTicks rng s 1 1).population.pressure ∧
    (simulateTicks rng s 1 1).population.pressure ≤ 2 ∧
    0 ≤ (simulateTicks rng s 1 1).resources.attractiveness ∧
    (simulateTicks rng s 1 1).resources.attractiveness ≤ 10 ∧
    (simulateTicks rng s 1 1).population.growth_rate = 0.1 ∧
    (simulateTicks rng s 1 1).population.decay_rate = 0.005 := by
  obtain ⟨hp, ha, h3, h4, h5, h6, h7, h8, h9⟩ :=
    simulateTicks_empty_step rng s 1 one_ne_zero hz ht hw
      (by norm_num; exact hdur) (by norm_num; exact hday)
  have hnot : ¬(2 : ℝ) < s.population.pressure := not_lt.mpr hp2
  rw [if_neg hnot] at hp
  have hmax : max (1 - s.population.pressure / 2) 0 = 1 - s.population.pressure / 2 :=
    max_eq_left (by linarith)
  rw [hmax, hgr, hdr] at hp
  refine ⟨h3, h4, h5, by rw [h6]; norm_num, by rw [h7]; norm_num, ?_, ?_, ?_, ?_,
    by rw [h8, hgr], by rw [h9, hdr]⟩
  · rw [hp]
    exact le_max_right _ _
  · rw [hp]
    refine max_le ?_ (by norm_num)
    have hkey : 0 ≤ (10 - s.resources.attractiveness) * (1 - s.population.pressure / 2) :=
      mul_nonneg (by linarith) (by linarith)
    push_cast
    nlinarith
  · rw [ha]
    exact le_max_right _ _
  · rw [ha]
    refine max_le ?_ (by norm_num)
    push_cast
    nlinarith

/-- The C1 invariant survives one more 1-tick batch. -/
lemma c1_invariant_chain (rng : TickRng) (s : SimState) (k : ℕ) (hk : k < 300)
    (h : C1Invariant k s) : C1Invariant (k + 1) (simulateTicks rng s 1 1) := by
  obtain ⟨hz, ht, hw, hd, hy, hp0, hp2, ha0, ha10, hg, hr⟩ := h
  have hkr : (k : ℝ) < 300 := by exact_mod_cast hk
  obtain ⟨z1, t1, w1, d1, y1, p1l, p1u, a1l, a1u, g1, r1⟩ :=
    c1_invariant_step rng s hz ht hw (by rw [hd]; linarith) (by rw [hy]; linarith)
      hp0 hp2 ha0 ha10 hg hr
  exact ⟨z1, t1, w1, by rw [d1, hd]; push_cast; ring, by rw [y1, hy]; push_cast; ring,
    p1l, p1u, a1l, a1u, g1, r1⟩

/-- Claim C1 (counterexample): on the concrete zone-free state `s0` the single
10-tick batch and ten sequential 1-tick batches do NOT agree within
floating-point tolerance — the batched population pressure (9.95) exceeds the
sequential one (≤ 2) by more than 5, because the batch evaluates the
capacity-limited population update once with the aggregate elapsed time. -/
theorem c1_batching_counterexample :
    5 < (simulateTicks rng0 s0 10 1).population.pressure -
      (simulateTicks rng0 (simulateTicks rng0 (simulateTicks rng0 (simulateTicks rng0
        (simulateTicks rng0 (simulateTicks rng0 (simulateTicks rng0 (simulateTicks rng0
        (simulateTicks rng0 (simulateTicks rng0 s0 1 1) 1 1) 1 1) 1 1) 1 1) 1 1) 1 1) 1 1)
        1 1) 1 1).population.pressure := by
  have h0 : C1Invariant 0 s0 := by
    refine ⟨rfl, rfl, rfl, by norm_num [s0, SeasonState.default],
      by norm_num [s0, SeasonState.default], by norm_num [s0], by norm_num [s0],
      by norm_num [s0, Resources.new], by norm_num [s0, Resources.new],
      by norm_num [s0], by norm_num [s0]⟩
  have h1 := c1_invariant_chain rng0 s0 0 (by norm_num) h0
  have h2 := c1_invariant_chain rng0 _ 1 (by norm_num) h1
  have h3 := c1_invariant_chain rng0 _ 2 (by norm_num) h2
  have h4 := c1_invariant_chain rng0 _ 3 (by norm_num) h3
  have h5 := c1_invariant_chain rng0 _ 4 (by norm_num) h4
  have h6 := c1_invariant_chain rng0 _ 5 (by norm_num) h5
  have h7 := c1_invariant_chain rng0 _ 6 (by norm_num) h6
  have h8 := c1_invariant_chain rng0 _ 7 (by norm_num) h7
  have h9 := c1_invariant_chain rng0 _ 8 (by norm_num) h8
  have h10 := c1_invariant_chain rng0 _ 9 (by norm_num) h9
  obtain ⟨-, -, -, -, -, -, hp10, -, -, -, -⟩ := h10
  obtain ⟨hbp, -⟩ := simulateTicks_empty_step rng0 s0 10 (by norm_num) rfl rfl rfl
    (by norm_num [show s0.season_state.weather_duration = 6 from rfl])
    (by norm_num [show s0.season_state.day_in_season = 0 from rfl])
  have hb : (simulateTicks rng0 s0 10 1).population.pressure = 199 / 20 := by
    rw [hbp]
    norm_num [show s0.population.pressure = 0 from rfl,
      show s0.resources.attractiveness = 10 from rfl,
      show s0.population.growth_rate = 0.1 from rfl,
      show s0.population.decay_rate = 0.005 from rfl, max_def]
  rw [hb]
  linarith [hp10]

/-- Claim C1 (amended): the batched step is time-linear only in elapsed game
time — one 10-tick batch and ten sequential 1-tick batches advance
`game_time_hours` by exactly the same 1/6 hour — while the resource/population
values themselves may differ beyond floating-point tolerance (see the
counterexample). -/
theorem c1_batching_amended (rng : TickRng) (s : SimState) :
    (simulateTicks rng s 10 1).game_time_hours = s.game_time_hours + 1 / 6 ∧
    (simulateTicks rng (simulateTicks rng (simulateTicks rng (simulateTicks rng
      (simulateTicks rng (simulateTicks rng (simulateTicks rng (simulateTicks rng
      (simulateTicks rng (simulateTicks rng s 1 1) 1 1) 1 1) 1 1) 1 1) 1 1) 1 1) 1 1)
      1 1) 1 1).game_time_hours = s.game_time_hours + 1 / 6 := by
  have hstep : ∀ st : SimState,
      (simulateTicks rng st 1 1).game_time_hours = st.game_time_hours + 1 / 60 := by
    intro st
    rw [simulateTicks_game_time rng st 1 1 one_ne_zero]
    norm_num
  constructor
  · rw [simulateTicks_game_time rng s 10 1 (by norm_num)]
    norm_num
  · simp only [hstep]
    ring

/-- Claim C2 (code bug): `simulate_ticks` never wires in the zone decay and
dormancy machinery: on the concrete failing state the 5-tick/60-second batch
(300 game-minutes) leaves the active zone exactly as it was, although the
zone module's own `apply_decay` over the same 300 minutes would drive its
condition to 0, far below the 0.1 neglect threshold at which
`should_go_dormant` fires; in fact no `simulate_ticks` call ever changes any
zone's `dormant` flag. -/
theorem c2_dormancy_never_triggered :
    (simulateTicks rng0 c2State 5 60).zones = [c2Zone] ∧
    c2Zone.dormant = false ∧
    (c2Zone.apply_decay c2Template 300).condition = 0 ∧
    (c2Zone.apply_decay c2Template 300).should_go_dormant c2Template ∧
    (∀ (rng : TickRng) (s : SimState) (n : ℕ) (ts : ℝ),
      (simulateTicks rng s n ts).zones.map Zone.dormant = s.zones.map Zone.dormant) := by
  refine ⟨?_, rfl, ?_, ?_, fun rng s n ts => simulateTicks_dormant_preserved rng s n ts⟩
  · unfold simulateTicks
    rw [if_neg (by norm_num : (5 : ℕ) ≠ 0)]
    dsimp only
    rw [seasonState_update_quiet c2State.season_state rng0.season_rng (((5 : ℕ) : ℝ) * 60 / 60)
      (by norm_num [c2State, SeasonState.default])
      (by norm_num [c2State, SeasonState.default])]
    dsimp only
    norm_num [c2State, SeasonState.default, Weather.building_damage_chance]
  · norm_num [Zone.apply_decay, c2Zone, c2Template, Zone.is_under_construction,
      ConstructionState.isUnderConstruction]
  · norm_num [Zone.apply_decay, Zone.should_go_dormant, c2Zone, c2Template,
      Zone.is_under_construction, ConstructionState.isUnderConstruction]

/-- Claim C4: after every batched step with a positive tick count, the agent
roster has exactly `min(round(population pressure), 50)` members, regardless
of the prior roster. -/
theorem c4_agent_roster_reconciliation (rng : TickRng) (s : SimState) (n : ℕ) (ts : ℝ)
    (hn : n ≠ 0) :
    (simulateTicks rng s n ts).agents.length =
      min (round (simulateTicks rng s n ts).population.pressure).toNat 50 := by
  unfold simulateTicks
  rw [if_neg hn]
  dsimp only
  rw [List.length_map, List.enum_length, reconcileAgents_length]

/-- Witness for C4: the reconciliation identity applied at the concrete
zone-free state with a single tick. -/
theorem c4_agent_roster_witness :
    (1 : ℕ) ≠ 0 ∧
    (simulateTicks rng0 s0 1 1).agents.length =
      min (round (simulateTicks rng0 s0 1 1).population.pressure).toNat 50 :=
  ⟨one_ne_zero, c4_agent_roster_reconciliation rng0 s0 1 1 one_ne_zero⟩

end Quiteville
